import Mathlib

/-!
Shallow embedding of the IAM-frontend authorization code and a verification
of the frozen claims about it.

Sources embedded here:
* `src/src/hooks/useModules.ts` (utils/permissions part): `PAGE_PERMISSIONS`,
  `hasPermission`, `canCreate`, `canRead`, `canUpdate`, `canDelete`,
  `hasPagePermission`, `filterNavigationByPermissions`.
* `src/src/services/authService.ts`: `simulateAction` (its pure
  response-conversion core; the HTTP transport is a parameter).
* `src/src/pages/DashboardPage.tsx`: `onSimulate` (request construction).
* `src/src/components/auth/PermissionGuard.tsx`: the guard decision.
* `src/unnamed/part_000` (Layout): the navigation list and its filtering.
* `src/unnamed/part_006` (authSlice and the entity type declarations):
  the auth state, its reducers, and the entity records.
* `src/src/services/permissionsService.ts`, `rolesService.ts`,
  `src/unnamed/part_008` (groupsService), `src/unnamed/part_009`
  (modulesService): the list-endpoint pagination conversions.

Modelling conventions: TypeScript `number` fields that hold identifiers,
counts, pages and limits are modelled as `Nat` (the code only ever produces
non-negative integral values for them); optional fields are `Option`;
JavaScript truthiness of numbers (`0` falsy) and strings (`""` falsy) is
modelled explicitly where the code relies on it (`||` defaults, `if`
conditions). The cyclic optional back-references between entities
(`Module.permissions`, `User.groups`, ...) are omitted: no embedded function
reads them. `Math.ceil`/`Math.floor` on the ratios of natural numbers are
modelled by exact natural arithmetic.
-/

namespace IAM

/-- Entity record from the type declarations in `src/unnamed/part_006`:
`Module extends BaseEntity` with `name`, optional `description`, `isActive`.
The optional `permissions` back-reference is omitted (unused by the gate). -/
structure Module where
  id : Nat
  name : String
  description : Option String := none
  isActive : Bool
  createdAt : String := ""
  updatedAt : String := ""
  deriving DecidableEq

/-- Entity record `Permission extends BaseEntity`: `name`, optional
`description`, `action`, `moduleId`, `isActive`, optional `module`. -/
structure Permission where
  id : Nat
  name : String
  description : Option String := none
  action : String
  moduleId : Nat
  isActive : Bool
  module : Option Module := none
  createdAt : String := ""
  updatedAt : String := ""
  deriving DecidableEq

/-- `hasPermission` from `src/src/hooks/useModules.ts` lines 171-182:
`permissions.some(p => p.module?.name === module && p.action === action && p.isActive)`.
The optional chaining `p.module?.name === module` is false when `module` is
absent, which `Option.map` followed by comparison with `some` reproduces. -/
def hasPermission (permissions : List Permission) (module action : String) : Bool :=
  permissions.any fun permission =>
    permission.module.map Module.name == some module &&
    permission.action == action &&
    permission.isActive

/-- `canCreate` (useModules.ts lines 187-189). -/
def canCreate (permissions : List Permission) (module : String) : Bool :=
  hasPermission permissions module "create"

/-- `canRead` (useModules.ts lines 193-196). -/
def canRead (permissions : List Permission) (module : String) : Bool :=
  hasPermission permissions module "read"

/-- `canUpdate` (useModules.ts lines 200-203). -/
def canUpdate (permissions : List Permission) (module : String) : Bool :=
  hasPermission permissions module "update"

/-- `canDelete` (useModules.ts lines 207-210). -/
def canDelete (permissions : List Permission) (module : String) : Bool :=
  hasPermission permissions module "delete"

/-- One entry of a `PAGE_PERMISSIONS` value: a module/action requirement. -/
structure PageRequirement where
  module : String
  action : String
  deriving DecidableEq

/-- The `PAGE_PERMISSIONS` record (useModules.ts lines 157-164), as the
key-lookup function the code applies to it: `PAGE_PERMISSIONS[pagePath]`
yields the listed value on the six keys and `undefined` (`none`) elsewhere. -/
def PAGE_PERMISSIONS : String → Option (List PageRequirement) := fun path =>
  if path = "/dashboard" then some []
  else if path = "/users" then some [{ module := "Users", action := "read" }]
  else if path = "/groups" then some [{ module := "Groups", action := "read" }]
  else if path = "/roles" then some [{ module := "Roles", action := "read" }]
  else if path = "/modules" then some [{ module := "Modules", action := "read" }]
  else if path = "/permissions" then some [{ module := "Permissions", action := "read" }]
  else none

/-- The six keys of the `PAGE_PERMISSIONS` record. -/
def PAGE_PERMISSION_KEYS : List String :=
  ["/dashboard", "/users", "/groups", "/roles", "/modules", "/permissions"]

/-- `hasPagePermission` (useModules.ts lines 215-230): look up the page's
requirements; a missing entry or an empty requirement list grants access;
otherwise some requirement must pass `hasPermission`. -/
def hasPagePermission (permissions : List Permission) (pagePath : String) : Bool :=
  match PAGE_PERMISSIONS pagePath with
  | none => true
  | some requiredPermissions =>
    if requiredPermissions.length = 0 then true
    else requiredPermissions.any fun r => hasPermission permissions r.module r.action

/-- A navigation item as in the `navigation` constant of the Layout
component (`src/unnamed/part_000`); the icon component reference is kept as
its name. The TypeScript function is generic over `T extends \x7b href: string \x7d`;
this record is the instantiation the application uses. -/
structure NavItem where
  name : String
  href : String
  icon : String := ""
  deriving DecidableEq

/-- `filterNavigationByPermissions` (useModules.ts lines 244-251). -/
def filterNavigationByPermissions (navigationItems : List NavItem)
    (permissions : List Permission) : List NavItem :=
  navigationItems.filter fun item => hasPagePermission permissions item.href

/-- The `navigation` constant of the Layout component. -/
def navigation : List NavItem :=
  [ { name := "Dashboard", href := "/dashboard", icon := "LayoutDashboard" },
    { name := "Users", href := "/users", icon := "Users" },
    { name := "Groups", href := "/groups", icon := "UsersRound" },
    { name := "Roles", href := "/roles", icon := "Shield" },
    { name := "Modules", href := "/modules", icon := "Package" },
    { name := "Permissions", href := "/permissions", icon := "Key" } ]

/-- Outcome of rendering `PermissionGuard`. -/
inductive GuardOutcome where
  | redirectToDashboard
  | renderChildren
  deriving DecidableEq

/-- `PermissionGuard` (`src/src/components/auth/PermissionGuard.tsx` lines
10-23): render the children when `hasPagePermission` grants the current
path, otherwise navigate to `/dashboard`. -/
def PermissionGuard (permissions : List Permission) (pathname : String) : GuardOutcome :=
  if hasPagePermission permissions pathname then .renderChildren
  else .redirectToDashboard

/-- `SimulateActionRequest` from the type declarations. -/
structure SimulateActionRequest where
  userId : Nat
  moduleId : Nat
  moduleName : String
  action : String
  deriving DecidableEq

/-- The `data` payload of `BackendSimulateActionResponse`
(`src/src/services/authService.ts` lines 35-44). -/
structure BackendSimulateActionData where
  userId : Nat
  moduleId : Nat
  moduleName : String
  action : String
  hasPermission : Bool
  deriving DecidableEq

/-- `SimulateActionResponse` from the type declarations. -/
structure SimulateActionResponse where
  allowed : Bool
  reason : Option String := none
  deriving DecidableEq

/-- JavaScript `a || b` on strings: the empty string is falsy. -/
def jsStringOr (a b : String) : String :=
  if a = "" then b else a

/-- The response conversion of `authService.simulateAction`
(`src/src/services/authService.ts` lines 89-97). The HTTP layer is a
parameter: `backend` is the `data` object of the backend response.
`moduleName` falls back as `data.moduleName || response.moduleName || 'unknown'`,
and a denial carries the single template reason string. -/
def simulateAction (data : SimulateActionRequest)
    (backend : BackendSimulateActionData) : SimulateActionResponse :=
  let moduleName := jsStringOr data.moduleName (jsStringOr backend.moduleName "unknown")
  { allowed := backend.hasPermission
    reason :=
      if backend.hasPermission then none
      else some ("No " ++ data.action ++ " permission for " ++ moduleName ++ " module") }

/-- The simulation form values (`DashboardPage.tsx`). -/
structure SimulateFormData where
  resource : String
  action : String
  deriving DecidableEq

/-- The request-construction part of `onSimulate`
(`src/src/pages/DashboardPage.tsx` lines 91-112): look the chosen module up
by name in the loaded module list; return early (no request at all) when it
is absent, otherwise build the `SimulateActionRequest`.
`user?.id || 0` is `Option.getD` composed with zero-falsiness, which on
`Nat` collapses to `getD 0`. -/
def onSimulate (modules : List Module) (userId : Option Nat)
    (data : SimulateFormData) : Option SimulateActionRequest :=
  match modules.find? (fun m => m.name == data.resource) with
  | none => none
  | some module =>
    some { userId := userId.getD 0, moduleId := module.id,
           moduleName := module.name, action := data.action }

/-- Entity record `User extends BaseEntity`; the optional `groups`
back-reference is omitted (nothing embedded here reads it). -/
structure User where
  id : Nat
  username : String
  email : String
  firstName : Option String := none
  lastName : Option String := none
  isActive : Bool := true
  createdAt : String := ""
  updatedAt : String := ""
  deriving DecidableEq

/-- `AuthState` from `src/unnamed/part_006`. -/
structure AuthState where
  user : Option User
  token : Option String
  permissions : List Permission
  isAuthenticated : Bool
  isLoading : Bool
  deriving DecidableEq

/-- The localStorage contents the auth slice reads: the parsed `user`, the
raw `token` string, the parsed `permissions`. A failed JSON parse is `none`
respectively `[]`, exactly what `getStoredUser`/`getStoredPermissions`
return on their catch branches. -/
structure StoredAuth where
  user : Option User := none
  token : Option String := none
  permissions : List Permission := []
  deriving DecidableEq

/-- JavaScript truthiness of `localStorage.getItem('token')`: `null` and the
empty string are falsy. -/
def tokenTruthy : Option String → Bool
  | none => false
  | some t => !(t == "")

/-- `initialState` of the auth slice, as a function of the localStorage
contents read at module load: `token: localStorage.getItem('token')`,
`isAuthenticated: !!localStorage.getItem('token')`. -/
def initialState (storage : StoredAuth) : AuthState :=
  { user := storage.user
    token := storage.token
    permissions := storage.permissions
    isAuthenticated := tokenTruthy storage.token
    isLoading := false }

/-- The five reducer actions of the auth slice. `restoreAuth` reads
localStorage at dispatch time, so the action carries those contents. -/
inductive AuthAction where
  | setCredentials (user : User) (token : String)
  | setPermissions (permissions : List Permission)
  | logout
  | setLoading (isLoading : Bool)
  | restoreAuth (storage : StoredAuth)

/-- The auth slice reducers (`src/unnamed/part_006` lines 31-87) as a single
step function on `AuthState`. The localStorage writes are side effects on
storage, not on the state, and are not part of the state transition.
`restoreAuth` guards on `storedUser && storedToken`: a non-null object is
truthy, a string is truthy when non-empty. -/
def authReducer (state : AuthState) : AuthAction → AuthState
  | .setCredentials user token =>
    { state with user := some user, token := some token, isAuthenticated := true }
  | .setPermissions permissions =>
    { state with permissions := permissions }
  | .logout =>
    { state with user := none, token := none, permissions := [], isAuthenticated := false }
  | .setLoading isLoading =>
    { state with isLoading := isLoading }
  | .restoreAuth storage =>
    match storage.user, storage.token with
    | some storedUser, some storedToken =>
      if storedToken == "" then state
      else
        { state with user := some storedUser, token := some storedToken,
                     permissions := storage.permissions, isAuthenticated := true }
    | _, _ => state

/-- States reachable from a given state by dispatching reducer actions. -/
inductive ReachableFrom (s0 : AuthState) : AuthState → Prop where
  | refl : ReachableFrom s0 s0
  | step {s : AuthState} (a : AuthAction) :
      ReachableFrom s0 s → ReachableFrom s0 (authReducer s a)

/-- List-endpoint query parameters
(`UsersQueryParams`/`GroupsQueryParams`/`RolesQueryParams`/`ModulesQueryParams`
all have this shape; `PermissionsQueryParams` adds `moduleId`). -/
structure UsersQueryParams where
  page : Option Nat := none
  limit : Option Nat := none
  search : Option String := none
  isActive : Option Bool := none

/-- `GroupsQueryParams`. -/
structure GroupsQueryParams where
  page : Option Nat := none
  limit : Option Nat := none
  search : Option String := none
  isActive : Option Bool := none

/-- `RolesQueryParams`. -/
structure RolesQueryParams where
  page : Option Nat := none
  limit : Option Nat := none
  search : Option String := none
  isActive : Option Bool := none

/-- `ModulesQueryParams`. -/
structure ModulesQueryParams where
  page : Option Nat := none
  limit : Option Nat := none
  search : Option String := none
  isActive : Option Bool := none

/-- `PermissionsQueryParams` (adds the `moduleId` filter). -/
structure PermissionsQueryParams where
  page : Option Nat := none
  limit : Option Nat := none
  search : Option String := none
  moduleId : Option Nat := none
  isActive : Option Bool := none

/-- Entity record `Role extends BaseEntity`; back-reference collections
omitted. -/
structure Role where
  id : Nat
  name : String
  description : Option String := none
  isActive : Bool := true
  createdAt : String := ""
  updatedAt : String := ""
  deriving DecidableEq

/-- Entity record `Group extends BaseEntity`; back-reference collections
omitted. -/
structure Group where
  id : Nat
  name : String
  description : Option String := none
  isActive : Bool := true
  createdAt : String := ""
  updatedAt : String := ""
  deriving DecidableEq

/-- The backend list-endpoint envelope `\x7b success, count, data \x7d`,
generic over the entity type. -/
structure BackendListResponse (α : Type) where
  success : Bool
  count : Nat
  data : List α

/-- The `pagination` object of a `PaginatedResponse`. -/
structure Pagination where
  page : Nat
  limit : Nat
  total : Nat
  totalPages : Nat
  deriving DecidableEq

/-- `PaginatedResponse` from the type declarations. -/
structure PaginatedResponse (α : Type) where
  data : List α
  pagination : Pagination

/-- JavaScript `v || d` on an optional number: `undefined` and `0` are
falsy. -/
def jsNumOr (v : Option Nat) (d : Nat) : Nat :=
  match v with
  | none => d
  | some n => if n = 0 then d else n

/-- JavaScript truthiness of an optional number (`params.page ? _ : _`). -/
def jsNumTruthy (v : Option Nat) : Bool :=
  match v with
  | none => false
  | some n => n != 0

/-- `Math.ceil(total / limit)` for natural inputs and positive `limit`,
in exact natural arithmetic. -/
def mathCeilDiv (total limit : Nat) : Nat :=
  (total + limit - 1) / limit

/-- The response conversion shared verbatim by the five list services:
`limit: params.limit || 1000`,
`offset: params.page ? (params.page - 1) * (params.limit || 1000) : 0`,
`totalPages: Math.ceil(total / limit)`,
`page: Math.floor(offset / limit) + 1` (floor is `Nat` division here). -/
def convertListResponse {α : Type} (page limit : Option Nat)
    (response : BackendListResponse α) : PaginatedResponse α :=
  let backendLimit := jsNumOr limit 1000
  let backendOffset :=
    if jsNumTruthy page then (page.getD 0 - 1) * jsNumOr limit 1000 else 0
  let total := response.count
  let totalPages := mathCeilDiv total backendLimit
  let currentPage := backendOffset / backendLimit + 1
  { data := response.data
    pagination :=
      { page := currentPage, limit := backendLimit, total := total, totalPages := totalPages } }

/-- `usersService.getUsers` (`src/src/services/permissionsService.ts`
file group, lines 112-138): the pagination conversion around the
`/users` call. -/
def usersService.getUsers (params : UsersQueryParams)
    (response : BackendListResponse User) : PaginatedResponse User :=
  convertListResponse params.page params.limit response

/-- `groupsService.getGroups` (`src/unnamed/part_008` lines 39-65). -/
def groupsService.getGroups (params : GroupsQueryParams)
    (response : BackendListResponse Group) : PaginatedResponse Group :=
  convertListResponse params.page params.limit response

/-- `rolesService.getRoles` (`src/src/services/rolesService.ts` lines 38-66). -/
def rolesService.getRoles (params : RolesQueryParams)
    (response : BackendListResponse Role) : PaginatedResponse Role :=
  convertListResponse params.page params.limit response

/-- `modulesService.getModules` (`src/unnamed/part_009` lines 28-54). -/
def modulesService.getModules (params : ModulesQueryParams)
    (response : BackendListResponse Module) : PaginatedResponse Module :=
  convertListResponse params.page params.limit response

/-- `permissionsService.getPermissions`
(`src/src/services/permissionsService.ts` lines 29-56). -/
def permissionsService.getPermissions (params : PermissionsQueryParams)
    (response : BackendListResponse Permission) : PaginatedResponse Permission :=
  convertListResponse params.page params.limit response

/-- What claim C10 (as amended) asserts of one converted pagination object,
given the requested page/limit and the backend count: the effective limit is
the supplied limit when non-zero, 1000 when absent or zero; the total is the
backend count; the total page count is the ceiling of total over limit
(characterized by its defining bounds); and the page round-trips. -/
def PaginationSpec (pagePar limitPar : Option Nat) (count : Nat)
    (pag : Pagination) : Prop :=
  (∀ k, limitPar = some k → k ≠ 0 → pag.limit = k) ∧
  (limitPar = none → pag.limit = 1000) ∧
  (limitPar = some 0 → pag.limit = 1000) ∧
  pag.total = count ∧
  (count ≤ pag.limit * pag.totalPages ∧ pag.limit * pag.totalPages < count + pag.limit) ∧
  (pagePar = none → pag.page = 1) ∧
  (∀ k, pagePar = some k → 1 ≤ k → pag.page = k)

/-- The gate exactly as claim C1 words it, for comparison with the source
`hasPermission`: some permission matches on module name and action, with no
condition on the active flag. -/
def hasPermissionSpecC1 (permissions : List Permission) (module action : String) : Bool :=
  permissions.any fun permission =>
    permission.module.map Module.name == some module &&
    permission.action == action

/-- The module named Users, active, as in the example scenario. -/
def usersModule : Module :=
  { id := 1, name := "Users", isActive := true }

/-- A read permission on the active Users module whose own active flag is
off. -/
def inactiveUsersRead : Permission :=
  { id := 11, name := "Read Users", action := "read", moduleId := 1,
    isActive := false, module := some usersModule }

/-- An active read permission on the Users module. -/
def activeUsersRead : Permission :=
  { id := 12, name := "Read Users", action := "read", moduleId := 1,
    isActive := true, module := some usersModule }

/-- An active read permission whose owning module (Users) is inactive. -/
def activeReadInactiveModule : Permission :=
  { id := 13, name := "Read Users", action := "read", moduleId := 1,
    isActive := true,
    module := some { id := 1, name := "Users", isActive := false } }

/-- An active read permission on the Groups module. -/
def activeGroupsRead : Permission :=
  { id := 14, name := "Read Groups", action := "read", moduleId := 2,
    isActive := true,
    module := some { id := 2, name := "Groups", isActive := true } }

/-- Simulation request naming a module that does not exist. -/
def simReqNonexistent : SimulateActionRequest :=
  { userId := 1, moduleId := 0, moduleName := "Nonexistent", action := "delete" }

/-- Simulation request naming the known Users module. -/
def simReqUsers : SimulateActionRequest :=
  { userId := 1, moduleId := 1, moduleName := "Users", action := "delete" }

/-- A denying backend decision for the nonexistent-module request. -/
def backendDeniedNonexistent : BackendSimulateActionData :=
  { userId := 1, moduleId := 0, moduleName := "Nonexistent", action := "delete",
    hasPermission := false }

/-- A denying backend decision for the Users/delete request. -/
def backendDeniedUsers : BackendSimulateActionData :=
  { userId := 1, moduleId := 1, moduleName := "Users", action := "delete",
    hasPermission := false }

/-- The same denying decision with a module id that names no known module;
only the `moduleId` differs from `backendDeniedUsers`. -/
def backendDeniedUsersOtherId : BackendSimulateActionData :=
  { userId := 1, moduleId := 999, moduleName := "Users", action := "delete",
    hasPermission := false }

/-! Helper lemmas shared by several claim proofs. -/

/-- A permutation of the scanned list does not change `List.any`. -/
theorem any_of_perm {α : Type} {l₁ l₂ : List α} (f : α → Bool)
    (h : l₁.Perm l₂) : l₁.any f = l₂.any f := by
  have hiff : (l₁.any f = true) ↔ (l₂.any f = true) := by
    simp only [List.any_eq_true]
    exact ⟨fun ⟨x, hx, hfx⟩ => ⟨x, h.mem_iff.mp hx, hfx⟩,
           fun ⟨x, hx, hfx⟩ => ⟨x, h.mem_iff.mpr hx, hfx⟩⟩
  cases h1 : l₁.any f <;> cases h2 : l₂.any f <;> simp_all

/-! The claims. -/

/-- Claim C1, counterexample: a permission whose `isActive` flag is off
matches the claimed criterion (module name Users, action read) yet the gate
denies, so the claimed iff fails on this input. `hasPermissionSpecC1` is the
gate as the claim words it. -/
theorem C1_counterexample :
    hasPermissionSpecC1 [inactiveUsersRead] "Users" "read" = true ∧
    hasPermission [inactiveUsersRead] "Users" "read" = false := by
  constructor <;> rfl

/-- Claim C1 (amended): `hasPermission P m a` is true iff some permission in
`P` has a present module named `m`, action `a`, and `isActive = true` — the
gate additionally requires the permission's own active flag. -/
theorem C1_amended_gate_requires_active (P : List Permission) (m a : String) :
    hasPermission P m a = true ↔
    ∃ p ∈ P, p.module.map Module.name = some m ∧ p.action = a ∧ p.isActive = true := by
  unfold hasPermission
  simp [List.any_eq_true, and_assoc]

/-- Witness for C1: the amended iff applied at a concrete active
permission. -/
theorem C1_witness :
    hasPermission [activeUsersRead] "Users" "read" = true :=
  (C1_amended_gate_requires_active [activeUsersRead] "Users" "read").mpr
    ⟨activeUsersRead, by simp, rfl, rfl, rfl⟩

/-- Claim C2, counterexample: the only permission in the list matches module
name Users and action read, is itself active, but its owning module is
inactive; the claim then demands `hasPermission = false`, yet the gate
grants — the gate never consults the owning module's active flag. -/
theorem C2_counterexample :
    activeReadInactiveModule.module.map Module.name = some "Users" ∧
    activeReadInactiveModule.action = "read" ∧
    activeReadInactiveModule.isActive = true ∧
    activeReadInactiveModule.module.map Module.isActive = some false ∧
    hasPermission [activeReadInactiveModule] "Users" "read" = true :=
  ⟨rfl, rfl, rfl, rfl, rfl⟩

/-- Claim C2 (amended): if every permission in `P` matching module name `m`
and action `a` has `isActive = false`, the gate denies; inactivity of the
permission itself excludes it, but an inactive owning module alone does
not. -/
theorem C2_amended_inactive_permission_excluded (P : List Permission) (m a : String)
    (h : ∀ p ∈ P, p.module.map Module.name = some m → p.action = a → p.isActive = false) :
    hasPermission P m a = false := by
  unfold hasPermission
  rw [List.any_eq_false]
  intro p hp
  by_cases h1 : p.module.map Module.name = some m
  · by_cases h2 : p.action = a
    · simp [h1, h2, h p hp h1 h2]
    · simp [h2]
  · simp [h1]

/-- Witness for C2: the amended statement applied to a singleton list whose
matching permission is inactive. -/
theorem C2_witness :
    hasPermission [inactiveUsersRead] "Users" "read" = false :=
  C2_amended_inactive_permission_excluded [inactiveUsersRead] "Users" "read"
    (by decide)

/-- Claim C6: the empty effective permission set never grants anything, for
any module name and action, and the four action shorthands agree. -/
theorem C6_empty_set_grants_nothing (m a : String) :
    hasPermission [] m a = false ∧ canCreate [] m = false ∧ canRead [] m = false ∧
    canUpdate [] m = false ∧ canDelete [] m = false :=
  ⟨rfl, rfl, rfl, rfl, rfl⟩

/-- Claim C3, counterexample: both denial cases produce the same uniform
template reason differing only in the interpolated module name — the string
for the unknown module carries no module-not-found marker; the conversion
cannot depend on module existence at all (changing the backend module id
leaves the response literally unchanged); and the dashboard's `onSimulate`
returns early for an unknown module name, so that case never even produces
a simulation request. -/
theorem C3_counterexample :
    (simulateAction simReqNonexistent backendDeniedNonexistent).reason =
      some "No delete permission for Nonexistent module" ∧
    (simulateAction simReqUsers backendDeniedUsers).reason =
      some "No delete permission for Users module" ∧
    simulateAction simReqUsers backendDeniedUsersOtherId =
      simulateAction simReqUsers backendDeniedUsers ∧
    onSimulate [usersModule] (some 1)
      { resource := "Nonexistent", action := "delete" } = none :=
  ⟨rfl, rfl, rfl, rfl⟩

/-- Claim C3 (amended): every denial carries the one template reason
`No <action> permission for <moduleName> module`, with no distinction
between an unknown module and a known module lacking the action; and the
dashboard never sends a simulation request for a module name absent from
the loaded module list. -/
theorem C3_amended_uniform_denial_reason :
    (∀ (data : SimulateActionRequest) (backend : BackendSimulateActionData),
      backend.hasPermission = false → data.moduleName ≠ "" →
      (simulateAction data backend).allowed = false ∧
      (simulateAction data backend).reason =
        some ("No " ++ data.action ++ " permission for " ++ data.moduleName ++ " module")) ∧
    (∀ (modules : List Module) (userId : Option Nat) (form : SimulateFormData),
      (∀ m ∈ modules, m.name ≠ form.resource) →
      onSimulate modules userId form = none) := by
  constructor
  · intro data backend hdeny hname
    constructor
    · simp [simulateAction, hdeny]
    · simp [simulateAction, hdeny, jsStringOr, hname]
  · intro modules userId form hnone
    unfold onSimulate
    have hfind : modules.find? (fun m => m.name == form.resource) = none := by
      rw [List.find?_eq_none]
      intro m hm
      simp [hnone m hm]
    rw [hfind]

/-- Witness for C3: the amended statement applied to the denied Users/delete
simulation and to an unknown module name. -/
theorem C3_witness :
    (simulateAction simReqUsers backendDeniedUsers).allowed = false ∧
    (simulateAction simReqUsers backendDeniedUsers).reason =
      some ("No " ++ "delete" ++ " permission for " ++ "Users" ++ " module") ∧
    onSimulate [usersModule] (some 1) { resource := "Unknown", action := "read" } = none :=
  ⟨(C3_amended_uniform_denial_reason.1 simReqUsers backendDeniedUsers rfl (by decide)).1,
   (C3_amended_uniform_denial_reason.1 simReqUsers backendDeniedUsers rfl (by decide)).2,
   C3_amended_uniform_denial_reason.2 [usersModule] (some 1) _ (by decide)⟩

/-- Claim C4, counterexample: the denied Users/delete simulation does return
`allowed = false`, but its reason is the string
`No delete permission for Users module`, not the claimed
`no delete permission for Users`. -/
theorem C4_counterexample :
    (simulateAction simReqUsers backendDeniedUsers).allowed = false ∧
    (simulateAction simReqUsers backendDeniedUsers).reason ≠
      some "no delete permission for Users" ∧
    (simulateAction simReqUsers backendDeniedUsers).reason =
      some "No delete permission for Users module" := by
  refine ⟨rfl, ?_, rfl⟩
  decide

/-- Claim C4 (amended): for any simulation request with module name Users
and action delete whose backend decision is `hasPermission = false`, the
service returns `allowed = false` and reason exactly
`No delete permission for Users module`, independent of every other request
and response field. -/
theorem C4_amended_exact_reason_string (uid mid buid bmid : Nat) (bname bact : String) :
    simulateAction
      { userId := uid, moduleId := mid, moduleName := "Users", action := "delete" }
      { userId := buid, moduleId := bmid, moduleName := bname, action := bact,
        hasPermission := false } =
    { allowed := false, reason := some "No delete permission for Users module" } := rfl

/-- Claim C5: the gate and the page gate have no ordering dependency — a
permutation of the permission list changes neither `hasPermission` nor
`hasPagePermission`. -/
theorem C5_no_ordering_dependency (P Q : List Permission) (h : P.Perm Q)
    (m a pg : String) :
    hasPermission Q m a = hasPermission P m a ∧
    hasPagePermission Q pg = hasPagePermission P pg := by
  have hgate : ∀ m a, hasPermission Q m a = hasPermission P m a := fun m a =>
    any_of_perm _ h.symm
  refine ⟨hgate m a, ?_⟩
  unfold hasPagePermission
  cases hk : PAGE_PERMISSIONS pg with
  | none => rfl
  | some reqs =>
    have hfun : (fun r : PageRequirement => hasPermission Q r.module r.action) =
        (fun r : PageRequirement => hasPermission P r.module r.action) :=
      funext fun r => hgate r.module r.action
    simp only [hfun]

/-- Witness for C5: swapping a two-element permission list changes neither
decision. -/
theorem C5_witness :
    hasPermission [activeGroupsRead, activeUsersRead] "Users" "read" =
      hasPermission [activeUsersRead, activeGroupsRead] "Users" "read" ∧
    hasPagePermission [activeGroupsRead, activeUsersRead] "/users" =
      hasPagePermission [activeUsersRead, activeGroupsRead] "/users" :=
  C5_no_ordering_dependency [activeUsersRead, activeGroupsRead]
    [activeGroupsRead, activeUsersRead] (List.Perm.swap _ _ _) "Users" "read" "/users"

/-- Claim C7: navigation filtering returns the sublist of the items, in
their original order, consisting exactly of those whose `href` passes
`hasPagePermission`. -/
theorem C7_navigation_filter (items : List NavItem) (P : List Permission) :
    (filterNavigationByPermissions items P).Sublist items ∧
    ∀ it, it ∈ filterNavigationByPermissions items P ↔
      (it ∈ items ∧ hasPagePermission P it.href = true) := by
  refine ⟨List.filter_sublist items, ?_⟩
  intro it
  simp [filterNavigationByPermissions, List.mem_filter]

/-- Witness for C7: the Layout navigation filtered by the empty permission
set is an ordered sublist and keeps the Dashboard entry. -/
theorem C7_witness :
    (filterNavigationByPermissions navigation []).Sublist navigation ∧
    ({ name := "Dashboard", href := "/dashboard", icon := "LayoutDashboard" } : NavItem) ∈
      filterNavigationByPermissions navigation [] :=
  ⟨(C7_navigation_filter navigation []).1,
   ((C7_navigation_filter navigation []).2 _).mpr ⟨by simp [navigation], rfl⟩⟩

/-- A path that is none of the six `PAGE_PERMISSIONS` keys looks up to
`undefined`. -/
theorem PAGE_PERMISSIONS_eq_none (path : String) (h : path ∉ PAGE_PERMISSION_KEYS) :
    PAGE_PERMISSIONS path = none := by
  simp only [PAGE_PERMISSION_KEYS, List.mem_cons, List.not_mem_nil, or_false, not_or] at h
  obtain ⟨h1, h2, h3, h4, h5, h6⟩ := h
  simp [PAGE_PERMISSIONS, h1, h2, h3, h4, h5, h6]

/-- Claim C8: any path outside the six `PAGE_PERMISSIONS` keys is accessible
under every permission list, `/dashboard` is always accessible, and
`PermissionGuard` renders (does not redirect) on all of these. -/
theorem C8_unknown_paths_accessible (P : List Permission) (path : String)
    (h : path ∉ PAGE_PERMISSION_KEYS) :
    hasPagePermission P path = true ∧ PermissionGuard P path = .renderChildren ∧
    hasPagePermission P "/dashboard" = true ∧
    PermissionGuard P "/dashboard" = .renderChildren := by
  have hnone := PAGE_PERMISSIONS_eq_none path h
  have h1 : hasPagePermission P path = true := by
    unfold hasPagePermission
    rw [hnone]
  have h2 : hasPagePermission P "/dashboard" = true := rfl
  exact ⟨h1, by simp [PermissionGuard, h1], h2, by simp [PermissionGuard, h2]⟩

/-- Witness for C8: the login path is not a `PAGE_PERMISSIONS` key, and even
the empty permission list grants it and the dashboard. -/
theorem C8_witness :
    hasPagePermission [] "/login" = true ∧
    PermissionGuard [] "/login" = .renderChildren ∧
    hasPagePermission [] "/dashboard" = true ∧
    PermissionGuard [] "/dashboard" = .renderChildren :=
  C8_unknown_paths_accessible [] "/login" (by decide)

/-- Claim C9, counterexample: when localStorage holds the empty string under
the token key, the slice's initial state (itself reachable, in zero steps)
has `isAuthenticated = false` — the code computes it from string truthiness
— while `token` is the non-null empty string, so the claimed iff fails. -/
theorem C9_counterexample :
    (initialState { user := none, token := some "", permissions := [] }).isAuthenticated
      = false ∧
    (initialState { user := none, token := some "", permissions := [] }).token ≠ none ∧
    ReachableFrom (initialState { user := none, token := some "", permissions := [] })
      (initialState { user := none, token := some "", permissions := [] }) :=
  ⟨rfl, by decide, .refl⟩

/-- Claim C9 (amended): every state reachable from the initial auth state
satisfies `isAuthenticated = true → token ≠ null`, and the full iff holds
whenever the stored token the initial state was built from is not the empty
string (the only divergence: `isAuthenticated` is seeded from string
truthiness while `token` keeps the raw value); `logout` applied to any state
clears user, token and permissions and de-authenticates. -/
theorem C9_auth_invariant :
    (∀ (storage : StoredAuth) (s : AuthState),
      ReachableFrom (initialState storage) s →
      (s.isAuthenticated = true → s.token ≠ none) ∧
      (storage.token ≠ some "" → (s.isAuthenticated = true ↔ s.token ≠ none))) ∧
    (∀ s : AuthState,
      (authReducer s .logout).user = none ∧ (authReducer s .logout).token = none ∧
      (authReducer s .logout).permissions = [] ∧
      (authReducer s .logout).isAuthenticated = false) := by
  constructor
  · intro storage s h
    induction h with
    | refl =>
      constructor
      · intro hauth
        cases ht : storage.token with
        | none => simp [initialState, tokenTruthy, ht] at hauth
        | some t => simp [initialState, ht]
      · intro hne
        cases ht : storage.token with
        | none => simp [initialState, tokenTruthy, ht]
        | some t =>
          have hte : t ≠ "" := fun he => hne (by rw [ht, he])
          simp [initialState, tokenTruthy, ht, hte]
    | step a hprev ih =>
      cases a with
      | setCredentials u t => simp [authReducer]
      | setPermissions ps => simpa [authReducer] using ih
      | logout => simp [authReducer]
      | setLoading b => simpa [authReducer] using ih
      | restoreAuth st =>
        cases hu : st.user with
        | none => simpa [authReducer, hu] using ih
        | some u =>
          cases htk : st.token with
          | none => simpa [authReducer, hu, htk] using ih
          | some t =>
            by_cases he : t = ""
            · simpa [authReducer, hu, htk, he] using ih
            · simp [authReducer, hu, htk, he]
  · intro s
    exact ⟨rfl, rfl, rfl, rfl⟩

/-- Witness for C9: the invariant at the fresh initial state, and the logout
clause at that state. -/
theorem C9_witness :
    ((initialState { user := none, token := none, permissions := [] }).isAuthenticated = true ↔
      (initialState { user := none, token := none, permissions := [] }).token ≠ none) ∧
    (authReducer (initialState { user := none, token := none, permissions := [] })
      .logout).token = none :=
  ⟨(C9_auth_invariant.1 _ _ .refl).2 (by decide),
   (C9_auth_invariant.2 _).2.1⟩

/-- The ceiling division the conversion computes is characterized by its
defining bounds. -/
theorem mathCeilDiv_bounds (count l : Nat) (hl : 0 < l) :
    count ≤ l * mathCeilDiv count l ∧ l * mathCeilDiv count l < count + l := by
  unfold mathCeilDiv
  generalize hq : (count + l - 1) / l = q
  have hdm : l * q + (count + l - 1) % l = count + l - 1 := by
    rw [← hq]
    exact Nat.div_add_mod (count + l - 1) l
  have hmod : (count + l - 1) % l < l := Nat.mod_lt _ hl
  generalize hm : l * q = m at hdm ⊢
  generalize hr : (count + l - 1) % l = r at hdm hmod
  omega

/-- The shared list-service conversion satisfies the amended pagination
contract of claim C10. -/
theorem convertListResponse_spec {α : Type} (page limit : Option Nat)
    (response : BackendListResponse α) :
    PaginationSpec page limit response.count
      (convertListResponse page limit response).pagination := by
  have hl : 0 < jsNumOr limit 1000 := by
    cases limit with
    | none => simp [jsNumOr]
    | some k =>
      by_cases hk : k = 0
      · simp [jsNumOr, hk]
      · simp [jsNumOr, hk]
        omega
  refine ⟨?_, ?_, ?_, rfl, ?_, ?_, ?_⟩
  · intro k hk hk0
    simp [convertListResponse, jsNumOr, hk, hk0]
  · intro hk
    simp [convertListResponse, jsNumOr, hk]
  · intro hk
    simp [convertListResponse, jsNumOr, hk]
  · exact mathCeilDiv_bounds response.count (jsNumOr limit 1000) hl
  · intro hp
    simp [convertListResponse, hp, jsNumTruthy]
  · intro k hp hk
    subst hp
    show (if jsNumTruthy (some k) then (Option.getD (some k) 0 - 1) * jsNumOr limit 1000
        else 0) / jsNumOr limit 1000 + 1 = k
    have hkt : jsNumTruthy (some k) = true := by
      simp only [jsNumTruthy, bne_iff_ne, ne_eq, decide_eq_true_eq]
      omega
    simp only [hkt, if_true, Option.getD_some]
    rw [Nat.mul_div_cancel _ hl]
    omega

/-- Claim C10, counterexample: a supplied limit of 0 is falsy in the
`params.limit || 1000` default, so the returned pagination reports limit
1000 rather than the supplied 0 the claim requires. -/
theorem C10_counterexample :
    (usersService.getUsers { page := none, limit := some 0 }
      { success := true, count := 5, data := [] }).pagination.limit = 1000 ∧
    (1000 : Nat) ≠ 0 :=
  ⟨rfl, by decide⟩

/-- Claim C10 (amended): in all five list services, with effective limit l =
params.limit when supplied and non-zero, otherwise 1000 (a supplied 0 is
falsy), the returned pagination has limit = l, total = the backend count,
totalPages = the ceiling of count over l (stated by its bounds), page =
params.page when a page ≥ 1 is supplied and page = 1 when none is. -/
theorem C10_pagination_roundtrip :
    (∀ (params : UsersQueryParams) (response : BackendListResponse User),
      PaginationSpec params.page params.limit response.count
        (usersService.getUsers params response).pagination) ∧
    (∀ (params : GroupsQueryParams) (response : BackendListResponse Group),
      PaginationSpec params.page params.limit response.count
        (groupsService.getGroups params response).pagination) ∧
    (∀ (params : RolesQueryParams) (response : BackendListResponse Role),
      PaginationSpec params.page params.limit response.count
        (rolesService.getRoles params response).pagination) ∧
    (∀ (params : ModulesQueryParams) (response : BackendListResponse Module),
      PaginationSpec params.page params.limit response.count
        (modulesService.getModules params response).pagination) ∧
    (∀ (params : PermissionsQueryParams) (response : BackendListResponse Permission),
      PaginationSpec params.page params.limit response.count
        (permissionsService.getPermissions params response).pagination) :=
  ⟨fun params response => convertListResponse_spec params.page params.limit response,
   fun params response => convertListResponse_spec params.page params.limit response,
   fun params response => convertListResponse_spec params.page params.limit response,
   fun params response => convertListResponse_spec params.page params.limit response,
   fun params response => convertListResponse_spec params.page params.limit response⟩

/-- Witness for C10: requesting page 2 with limit 10 against a count of 25
round-trips the page, keeps the limit, and bounds the total pages. -/
theorem C10_witness :
    (usersService.getUsers { page := some 2, limit := some 10 }
      { success := true, count := 25, data := [] }).pagination.page = 2 ∧
    (usersService.getUsers { page := some 2, limit := some 10 }
      { success := true, count := 25, data := [] }).pagination.limit = 10 ∧
    25 ≤ (usersService.getUsers { page := some 2, limit := some 10 }
        { success := true, count := 25, data := [] }).pagination.limit *
      (usersService.getUsers { page := some 2, limit := some 10 }
        { success := true, count := 25, data := [] }).pagination.totalPages :=
  ⟨(C10_pagination_roundtrip.1 _ _).2.2.2.2.2.2 2 rfl (by decide),
   (C10_pagination_roundtrip.1 _ _).1 10 rfl (by decide),
   ((C10_pagination_roundtrip.1 { page := some 2, limit := some 10 }
      { success := true, count := 25, data := [] }).2.2.2.2.1).1⟩

end IAM
